import Mathlib

/-!
Verification of the AgentJobs matching/search core (`services/matcher.py`,
`services/skills.py`, `services/search.py`) against its specification.

Shallow embedding conventions:
* Python `str` is Lean `String`; `str.lower()` / `str.strip()` are modelled on
  the ASCII fragment (the entire skill/location vocabulary is ASCII).
* Python `None`-able values are `Option _`; Python truthiness is modelled
  explicitly where the source relies on it (`x or d`, `if not x`).
* Python `int` arithmetic is exact (`Int`/`Nat`).  The two places the source
  computes through IEEE floats — `int(match_pct * 40)` and
  `job_top >= candidate_min * 0.8` — coincide with the exact integer forms
  `40 * m / j` and `5 * top ≥ 4 * min` on the whole representable input
  range, and are embedded exactly.
* Wall-clock time is outside the model: the elapsed-ms fields are dropped and
  the `datetime` parsing of `posted_at` together with "now" is abstracted into
  a `parseDays` parameter giving the age of a posting in days (`none` when
  missing or unparsable).
-/

namespace AgentJobs

/-! ## Python string primitives (ASCII fragment) -/

/-- The whitespace characters stripped by `str.strip()` (ASCII fragment). -/
def pyIsSpace (c : Char) : Bool :=
  c = ' ' || c = '\t' || c = '\n' || c = '\r' || c = '\x0b' || c = '\x0c'

/-- `str.lower()` on one character (ASCII case mapping). -/
def pyLowerChar (c : Char) : Char :=
  if 'A' ≤ c ∧ c ≤ 'Z' then Char.ofNat (c.toNat + 32) else c

/-- `str.lower()`. -/
def pyLower (s : String) : String := ⟨s.data.map pyLowerChar⟩

/-- Strip leading and trailing whitespace from a character list. -/
def stripChars (l : List Char) : List Char :=
  ((l.dropWhile pyIsSpace).reverse.dropWhile pyIsSpace).reverse

/-- `str.strip()`. -/
def pyStrip (s : String) : String := ⟨stripChars s.data⟩

/-- Does `n` occur as a contiguous sublist of `h`?  (`n = []` matches.) -/
def subOccurs (n : List Char) : List Char → Bool
  | [] => n.isEmpty
  | c :: t => n.isPrefixOf (c :: t) || subOccurs n t

/-- Python substring test `needle in haystack` on strings. -/
def strIn (needle haystack : String) : Bool :=
  subOccurs needle.data haystack.data

/-- Lexicographic (code-point) strict order on strings, as Python `sorted` uses. -/
def strLtB : List Char → List Char → Bool
  | [], [] => false
  | [], _ :: _ => true
  | _ :: _, [] => false
  | a :: as, b :: bs =>
    if a.toNat < b.toNat then true
    else if a.toNat = b.toNat then strLtB as bs
    else false

/-- Insert into a lexicographically sorted list of strings. -/
def insertSorted (x : String) : List String → List String
  | [] => [x]
  | y :: ys => if strLtB x.data y.data then x :: y :: ys else y :: insertSorted x ys

/-- Python `sorted` on a list of strings. -/
def sortStrs (l : List String) : List String := l.foldr insertSorted []

/-- Python `set(l)`: deduplicate.  CPython's set iteration order is
unspecified; we fix first-occurrence order (every use in the source either
sorts the result or treats it as a set). -/
def pySet : List String → List String
  | [] => []
  | x :: xs => x :: (pySet xs).filter (fun y => y ≠ x)

/-! ## Skill vocabulary and normalization (`services/skills.py`) -/

/-- The canonical skill mapping `SKILL_ALIASES` (variations -> canonical name),
transcribed from `services/skills.py`.  Python dict key order = insertion
order; the keys are pairwise distinct. -/
def SKILL_ALIASES : List (String × String) := [
  ("python", "python"),
  ("python3", "python"),
  ("py", "python"),
  ("javascript", "javascript"),
  ("js", "javascript"),
  ("node.js", "nodejs"),
  ("nodejs", "nodejs"),
  ("node", "nodejs"),
  ("typescript", "typescript"),
  ("ts", "typescript"),
  ("react", "react"),
  ("reactjs", "react"),
  ("react.js", "react"),
  ("angular", "angular"),
  ("angularjs", "angular"),
  ("vue", "vue"),
  ("vuejs", "vue"),
  ("vue.js", "vue"),
  ("java", "java"),
  ("c++", "cpp"),
  ("cpp", "cpp"),
  ("c#", "csharp"),
  ("csharp", "csharp"),
  ("c-sharp", "csharp"),
  ("golang", "go"),
  ("go", "go"),
  ("rust", "rust"),
  ("ruby", "ruby"),
  ("rails", "ruby-on-rails"),
  ("ruby on rails", "ruby-on-rails"),
  ("php", "php"),
  ("swift", "swift"),
  ("kotlin", "kotlin"),
  ("scala", "scala"),
  ("r", "r"),
  ("sql", "sql"),
  ("mysql", "mysql"),
  ("postgresql", "postgresql"),
  ("postgres", "postgresql"),
  ("mongodb", "mongodb"),
  ("mongo", "mongodb"),
  ("redis", "redis"),
  ("elasticsearch", "elasticsearch"),
  ("kafka", "kafka"),
  ("rabbitmq", "rabbitmq"),
  ("aws", "aws"),
  ("amazon web services", "aws"),
  ("gcp", "gcp"),
  ("google cloud", "gcp"),
  ("azure", "azure"),
  ("microsoft azure", "azure"),
  ("docker", "docker"),
  ("kubernetes", "kubernetes"),
  ("k8s", "kubernetes"),
  ("terraform", "terraform"),
  ("ansible", "ansible"),
  ("jenkins", "jenkins"),
  ("ci/cd", "ci-cd"),
  ("cicd", "ci-cd"),
  ("git", "git"),
  ("github", "github"),
  ("gitlab", "gitlab"),
  ("linux", "linux"),
  ("unix", "unix"),
  ("machine learning", "machine-learning"),
  ("ml", "machine-learning"),
  ("deep learning", "deep-learning"),
  ("dl", "deep-learning"),
  ("artificial intelligence", "ai"),
  ("ai", "ai"),
  ("nlp", "nlp"),
  ("natural language processing", "nlp"),
  ("computer vision", "computer-vision"),
  ("cv", "computer-vision"),
  ("tensorflow", "tensorflow"),
  ("tf", "tensorflow"),
  ("pytorch", "pytorch"),
  ("torch", "pytorch"),
  ("keras", "keras"),
  ("scikit-learn", "scikit-learn"),
  ("sklearn", "scikit-learn"),
  ("pandas", "pandas"),
  ("numpy", "numpy"),
  ("scipy", "scipy"),
  ("matplotlib", "matplotlib"),
  ("tableau", "tableau"),
  ("power bi", "power-bi"),
  ("powerbi", "power-bi"),
  ("data analysis", "data-analysis"),
  ("data engineering", "data-engineering"),
  ("data science", "data-science"),
  ("etl", "etl"),
  ("spark", "apache-spark"),
  ("apache spark", "apache-spark"),
  ("hadoop", "hadoop"),
  ("hive", "hive"),
  ("airflow", "apache-airflow"),
  ("apache airflow", "apache-airflow"),
  ("rest api", "rest-api"),
  ("restful", "rest-api"),
  ("graphql", "graphql"),
  ("microservices", "microservices"),
  ("system design", "system-design"),
  ("dsa", "data-structures"),
  ("data structures", "data-structures"),
  ("algorithms", "algorithms"),
  ("agile", "agile"),
  ("scrum", "scrum"),
  ("jira", "jira"),
  ("figma", "figma"),
  ("sketch", "sketch"),
  ("adobe xd", "adobe-xd"),
  ("photoshop", "photoshop"),
  ("illustrator", "illustrator"),
  ("html", "html"),
  ("css", "css"),
  ("sass", "sass"),
  ("tailwind", "tailwind-css"),
  ("tailwindcss", "tailwind-css"),
  ("bootstrap", "bootstrap"),
  ("django", "django"),
  ("flask", "flask"),
  ("fastapi", "fastapi"),
  ("spring", "spring"),
  ("spring boot", "spring-boot"),
  ("springboot", "spring-boot"),
  (".net", "dotnet"),
  ("dotnet", "dotnet"),
  ("asp.net", "asp-dotnet"),
  ("express", "express"),
  ("expressjs", "express"),
  ("next.js", "nextjs"),
  ("nextjs", "nextjs"),
  ("nuxt", "nuxt"),
  ("nuxtjs", "nuxt"),
  ("flutter", "flutter"),
  ("react native", "react-native"),
  ("android", "android"),
  ("ios", "ios"),
  ("mobile development", "mobile-development"),
  ("devops", "devops"),
  ("sre", "sre"),
  ("site reliability", "sre"),
  ("cybersecurity", "cybersecurity"),
  ("security", "security"),
  ("penetration testing", "penetration-testing"),
  ("blockchain", "blockchain"),
  ("web3", "web3"),
  ("solidity", "solidity"),
  ("unity", "unity"),
  ("unreal", "unreal-engine"),
  ("game development", "game-development"),
  ("data annotation", "data-annotation"),
  ("data labeling", "data-annotation"),
  ("excel", "excel"),
  ("sap", "sap-erp"),
  ("salesforce", "salesforce-crm"),
  ("communication", "communication"),
  ("leadership", "leadership"),
  ("project management", "project-management"),
  ("product management", "product-management"),
  ("ux", "ux-design"),
  ("ui", "ui-design"),
  ("ux design", "ux-design"),
  ("ui design", "ui-design"),
  ("ui/ux", "ui-ux-design"),
  ("user research", "user-research"),
  ("seo", "seo"),
  ("sem", "sem"),
  ("google analytics", "google-analytics"),
  ("digital marketing", "digital-marketing"),
  ("content marketing", "content-marketing"),
  ("social media", "social-media-marketing"),
  ("copywriting", "copywriting")
]

/-- `normalize_skill`: `s = skill.strip().lower(); SKILL_ALIASES.get(s, s)`. -/
def normalize_skill (skill : String) : String :=
  let s := pyLower (pyStrip skill)
  (SKILL_ALIASES.lookup s).getD s

/-- `normalize_skills`: normalize a list, dropping falsy results and
duplicates, preserving first-seen order. -/
def normalize_skills (skills : List String) : List String :=
  skills.foldl (fun acc skill =>
    let n := normalize_skill skill
    if n ≠ "" ∧ n ∉ acc then acc ++ [n] else acc) []

/-! ## Skills sub-score (`matcher._score_skills`) -/

/-- `_score_skills(candidate_skills, job_skills)` for a job-skill *list of
strings* (the common case; the dynamically-typed paths are handled in
`scoreJob` below).  Python's `int(match_pct * 40)` equals `40 * m / j` in
exact arithmetic (truncation of a nonnegative value; the float computation
coincides on the representable range).  The local sets `c_set`/`j_set` are
the `normSet`s of the two sides. -/
def normSet (l : List String) : List String := pySet (l.map normalize_skill)

/-- `matched = c_set & j_set`, computed as a filter of `j_set` (same
elements, deduplicated). -/
def jMatched (cand job : List String) : List String :=
  (normSet job).filter (fun s => s ∈ normSet cand)

/-- `missing = j_set - c_set`. -/
def jMissing (cand job : List String) : List String :=
  (normSet job).filter (fun s => s ∉ normSet cand)

def score_skills (candidate_skills job_skills : List String) :
    Nat × List String × List String :=
  if job_skills = [] then (20, [], [])
  else if normSet job_skills = [] then
    (20, jMatched candidate_skills job_skills, jMissing candidate_skills job_skills)
  else
    (40 * (jMatched candidate_skills job_skills).length / (normSet job_skills).length,
     sortStrs (jMatched candidate_skills job_skills),
     sortStrs (jMissing candidate_skills job_skills))

/-! ## Location sub-score (`matcher._score_location`) -/

/-- The city → state/region grouping `LOCATION_STATES` from
`services/matcher.py`. -/
def LOCATION_STATES : List (String × String) := [
  ("hyderabad", "telangana"),
  ("bangalore", "karnataka"),
  ("bengaluru", "karnataka"),
  ("mumbai", "maharashtra"),
  ("pune", "maharashtra"),
  ("delhi", "delhi ncr"),
  ("delhi ncr", "delhi ncr"),
  ("new delhi", "delhi ncr"),
  ("gurgaon", "delhi ncr"),
  ("gurugram", "delhi ncr"),
  ("noida", "delhi ncr"),
  ("chennai", "tamil nadu"),
  ("kolkata", "west bengal"),
  ("ahmedabad", "gujarat"),
  ("remote", "remote")
]

/-- Python truthiness of an optional string (`None` and `""` are falsy). -/
def optStrFalsy : Option String → Bool
  | none => true
  | some s => s = ""

/-- `_get_state(location)`: first city key occurring as a substring of the
lowered/stripped location, mapped to its state. -/
def get_state (location : String) : Option String :=
  if location = "" then none
  else
    let loc := pyStrip (pyLower location)
    (LOCATION_STATES.find? (fun p => strIn p.1 loc)).map (fun p => p.2)

/-- Format an optional string the way a Python f-string renders it
(`None` prints as `"None"`). -/
def fmtOpt : Option String → String
  | none => "None"
  | some s => s

/-- Python truthiness of an optional int (`None` and `0` are falsy):
`x or d` evaluates to `d` exactly when `x` is `None` or `0`. -/
def pyOrI (x : Option Int) (d : Int) : Int :=
  match x with
  | none => d
  | some v => if v = 0 then d else v

/-- `x or ""` on an optional string (`None` and `""` both give `""`). -/
def pyOrStr (x : Option String) : String :=
  match x with
  | none => ""
  | some s => s

/-- `candidate_locs = [loc.lower().strip() for loc in candidate_locations]`. -/
def normLocs (l : List String) : List String := l.map (fun s => pyStrip (pyLower s))

/-- `job_loc = (job_location or "").lower().strip()`. -/
def jobLocOf (job_location : Option String) : String :=
  pyStrip (pyLower (pyOrStr job_location))

/-- `_score_location(candidate_locations, job_location, job_location_type)`.
The early-`return` loops become `List.any` searches; the reason strings
interpolate the raw `job_location` as the f-strings do (`None` renders as
`"None"`). -/
def score_location (candidate_locations : List String)
    (job_location job_location_type : Option String) : Int × String :=
  if optStrFalsy job_location ∧ optStrFalsy job_location_type then
    (10, "Location: Not specified by employer")
  else if (match job_location_type with
           | some t => pyLower t == "remote"
           | none => false) then
    (20, "Location: Remote position — available anywhere")
  else if candidate_locations = [] then
    (10, "Location: No preference specified")
  else if (normLocs candidate_locations).any (fun cloc =>
        strIn cloc (jobLocOf job_location) || strIn (jobLocOf job_location) cloc) then
    (20, "Location: Exact match — " ++ fmtOpt job_location)
  else if (normLocs candidate_locations).any (fun cloc =>
        match get_state cloc, get_state (jobLocOf job_location) with
        | some cs, some js => cs ≠ "" ∧ js ≠ "" ∧ cs = js
        | _, _ => false) then
    (15, "Location: Same region — " ++ fmtOpt job_location)
  else if (normLocs candidate_locations).contains "remote" &&
          (match job_location_type with
           | some t => t != "" && pyLower t == "hybrid"
           | none => false) then
    (12, "Location: Hybrid role in " ++ fmtOpt job_location)
  else
    (5, "Location: Different — " ++ fmtOpt job_location)

/-- Insert a comma before every third digit, working over the reversed
digit list (`i` counts digits already emitted). -/
def commaGroupRev : List Char → Nat → List Char
  | [], _ => []
  | c :: t, i =>
    (if i ≠ 0 ∧ i % 3 = 0 then [','] else []) ++ c :: commaGroupRev t (i + 1)

/-- Render an integer with thousands separators, as Python `f"{n:,}"`. -/
def fmtComma (n : Int) : String :=
  (if n < 0 then "-" else "") ++
    ⟨(commaGroupRev (toString n.natAbs).data.reverse 0).reverse⟩

/-- `job_top = job_max or job_min or 0`. -/
def salaryTop (job_min job_max : Option Int) : Int := pyOrI job_max (pyOrI job_min 0)

/-- `_score_salary(candidate_min, job_min, job_max)`.
`job_top = job_max or job_min or 0` uses Python truthiness (a present but
zero bound falls through).  `job_top >= candidate_min * 0.8` is embedded as
the exact `5 * job_top ≥ 4 * candidate_min` (the float comparison agrees on
the representable range). -/
def score_salary (candidate_min job_min job_max : Option Int) : Int × String :=
  if candidate_min = none ∨ (job_min = none ∧ job_max = none) then
    (8, "Salary: Not enough data to compare")
  else if salaryTop job_min job_max ≥ candidate_min.getD 0 then
    (15, "Salary: Meets minimum requirement (₹" ++ fmtComma (salaryTop job_min job_max) ++
         "/mo ≥ ₹" ++ fmtComma (candidate_min.getD 0) ++ "/mo)")
  else if 5 * salaryTop job_min job_max ≥ 4 * candidate_min.getD 0 then
    (10, "Salary: Close to minimum (₹" ++ fmtComma (salaryTop job_min job_max) ++
         "/mo vs ₹" ++ fmtComma (candidate_min.getD 0) ++ "/mo desired)")
  else
    (3, "Salary: Below minimum (₹" ++ fmtComma (salaryTop job_min job_max) ++
        "/mo vs ₹" ++ fmtComma (candidate_min.getD 0) ++ "/mo desired)")

/-- The `{jmin}-{jmax}` fragment of the experience reasons. -/
def expRange (job_min job_max : Option Int) : String :=
  toString (pyOrI job_min 0) ++ "-" ++ toString (pyOrI job_max 99)

/-- `_score_experience(candidate_years, job_min, job_max)`.
`jmin = job_min or 0` and `jmax = job_max or 99` use Python truthiness. -/
def score_experience (candidate_years job_min job_max : Option Int) : Int × String :=
  if candidate_years = none ∨ (job_min = none ∧ job_max = none) then
    (8, "Experience: Not enough data to compare")
  else if pyOrI job_min 0 ≤ candidate_years.getD 0 ∧
          candidate_years.getD 0 ≤ pyOrI job_max 99 then
    (15, "Experience: " ++ toString (candidate_years.getD 0) ++ " years matches " ++
         expRange job_min job_max ++ " year requirement")
  else if candidate_years.getD 0 ≥ pyOrI job_min 0 - 1 ∧
          candidate_years.getD 0 ≤ pyOrI job_max 99 + 1 then
    (10, "Experience: Close match — " ++ toString (candidate_years.getD 0) ++
         " years vs " ++ expRange job_min job_max ++ " required")
  else if candidate_years.getD 0 > pyOrI job_max 99 then
    (7, "Experience: Overqualified — " ++ toString (candidate_years.getD 0) ++
        " years vs " ++ expRange job_min job_max ++ " required")
  else
    (3, "Experience: Underqualified — " ++ toString (candidate_years.getD 0) ++
        " years vs " ++ expRange job_min job_max ++ " required")

/-- `_score_recency(posted_at)` after abstracting the `datetime` parse and the
current clock into `days_ago : Option Int` (`none` when `posted_at` is falsy
or fails to parse; otherwise `(now - posted).days`). -/
def score_recency (days_ago : Option Int) : Int × String :=
  match days_ago with
  | none => (5, "Recency: Unknown posting date")
  | some d =>
    if d ≤ 1 then (10, "Recency: Posted today")
    else if d ≤ 7 then (8, "Recency: Posted " ++ toString d ++ " days ago")
    else if d ≤ 30 then (5, "Recency: Posted " ++ toString d ++ " days ago")
    else (2, "Recency: Posted " ++ toString d ++ " days ago")

/-! ## Free-text skill extraction (`skills.extract_skills_from_text`) -/

/-- The word characters of the regex class `\\w` (ASCII fragment). -/
def isWordChar (c : Char) : Bool :=
  let n := c.toNat
  (97 ≤ n && n ≤ 122) || (65 ≤ n && n ≤ 90) || (48 ≤ n && n ≤ 57) || n == 95

/-- Does `\\b` hold between two adjacent positions, given the character on
each side (`none` at either end of the text)?  A boundary exists exactly when
word-ness differs across the position. -/
def boundary (left right : Option Char) : Bool :=
  (match left with | some c => isWordChar c | none => false) !=
  (match right with | some c => isWordChar c | none => false)

/-- `re.search(r'\\b' + re.escape(k) + r'\\b', text)`: does `k` occur in the
text with a word boundary on each side?  `prev` is the character immediately
before the current position. -/
def wordBoundedSearch (k : List Char) (prev : Option Char) : List Char → Bool
  | [] =>
    -- only the empty-remainder position is left; keys are nonempty, so the
    -- only way to match here is an empty key (never the case in the table)
    k.isEmpty && boundary prev none && boundary prev none
  | c :: t =>
    (k.isPrefixOf (c :: t) && boundary prev k.head? &&
      boundary k.getLast? ((c :: t).drop k.length).head?) ||
    wordBoundedSearch k (some c) t

/-- Does a surface form contain a space, slash or period (the source's test
for "multi-word" keys, which are matched by plain substring containment)? -/
def hasMultiSep (k : String) : Bool :=
  k.data.any (fun c => c = ' ' || c = '/' || c = '.')

/-- Is a single-word key scanned at all?  The source skips keys of length ≤ 1
unless they are in the allow-list `("r", "c")`. -/
def singleKeyScanned (k : String) : Bool :=
  !(k.length ≤ 1 && !(k == "r" || k == "c"))

/-- `extract_skills_from_text(text)`.  Multi-word keys are tested by substring
containment on the lowered text (the source tests them in descending length
order, which does not affect the accumulated set); single-word keys by
word-boundary search.  Returns the sorted deduplicated canonical forms. -/
def extract_skills_from_text (text : String) : List String :=
  if text = "" then []
  else
    let tl := pyLower text
    let multiFound := (SKILL_ALIASES.filter
      (fun p => hasMultiSep p.1 && strIn p.1 tl)).map (fun p => p.2)
    let singleFound := (SKILL_ALIASES.filter
      (fun p => !hasMultiSep p.1 && singleKeyScanned p.1 &&
        wordBoundedSearch p.1.data none tl.data)).map (fun p => p.2)
    sortStrs (pySet (multiFound ++ singleFound))

/-! ## JSON decoding (`json.loads` as used on the stored skills column) -/

/-- A decoded Python JSON value.  Numbers only matter for truthiness here, so
they are represented by whether they are zero. -/
inductive JVal where
  | jnull
  | jbool (b : Bool)
  | jnum (isZero : Bool)
  | jstr (s : String)
  | jarr (xs : List JVal)
  | jobj (fs : List (String × JVal))

/-- JSON whitespace (space, tab, newline, carriage return). -/
def jskipWs : List Char → List Char
  | c :: t => if c = ' ' || c = '\t' || c = '\n' || c = '\r' then jskipWs t else c :: t
  | [] => []

def isDigit (c : Char) : Bool := '0' ≤ c && c ≤ '9'

/-- Span off a (possibly empty) run of digits. -/
def takeDigits : List Char → List Char × List Char
  | c :: t =>
    if isDigit c then
      let (a, b) := takeDigits t
      (c :: a, b)
    else ([], c :: t)
  | [] => ([], [])

/-- The JSON integer part `0 | [1-9][0-9]*`. -/
def parseIntPart : List Char → Option (List Char × List Char)
  | '0' :: t => some (['0'], t)
  | c :: t =>
    if isDigit c then
      let (a, b) := takeDigits t
      some (c :: a, b)
    else none
  | [] => none

/-- Optional fraction `.[0-9]+`. -/
def parseFrac : List Char → Option (List Char × List Char)
  | '.' :: t =>
    match takeDigits t with
    | ([], _) => none
    | (ds, r) => some (ds, r)
  | l => some ([], l)

/-- Optional exponent `[eE][+-]?[0-9]+`. -/
def parseExp : List Char → Option (List Char × List Char)
  | c :: t =>
    if c = 'e' || c = 'E' then
      let t2 := match t with
        | s :: r => if s = '+' || s = '-' then r else s :: r
        | [] => []
      match takeDigits t2 with
      | ([], _) => none
      | (ds, r) => some (ds, r)
    else some ([], c :: t)
  | [] => some ([], [])

/-- A JSON number (after an optional leading minus already consumed decision).
Returns the value (zero-ness) and the rest. -/
def parseNum (l : List Char) : Option (JVal × List Char) :=
  let (l1, isNeg) := match l with
    | '-' :: t => (t, true)
    | _ => (l, false)
  match l1, isNeg with
  | 'I' :: 'n' :: 'f' :: 'i' :: 'n' :: 'i' :: 't' :: 'y' :: r, _ =>
    -- json.loads accepts Infinity / -Infinity by default
    some (.jnum false, r)
  | _, _ =>
    match parseIntPart l1 with
    | none => none
    | some (ip, l2) =>
      match parseFrac l2 with
      | none => none
      | some (fp, l3) =>
        match parseExp l3 with
        | none => none
        | some (_, l4) =>
          some (.jnum (ip.all (fun c => c = '0') && fp.all (fun c => c = '0')), l4)

/-- Value of one hexadecimal digit (code points 0-9, a-f, A-F). -/
def hexVal (c : Char) : Option Nat :=
  let n := c.toNat
  if 48 ≤ n ∧ n ≤ 57 then some (n - 48)
  else if 97 ≤ n ∧ n ≤ 102 then some (n - 87)
  else if 65 ≤ n ∧ n ≤ 70 then some (n - 55)
  else none

/-- The body of a JSON string after the opening quote.  Control characters
are rejected; `\uXXXX` escapes outside the valid `Char` range (lone
surrogates) are rejected, a harmless strictness since no stored data
contains them. -/
def parseStrBody : Nat → List Char → Option (List Char × List Char)
  | 0, _ => none
  | _, [] => none
  | fuel + 1, c :: t =>
    if c = '"' then some ([], t)
    else if c = '\\' then
      match t with
      | e :: t2 =>
        let simple : Option Char :=
          if e = '"' then some '"'
          else if e = '\\' then some '\\'
          else if e = '/' then some '/'
          else if e = 'b' then some '\x08'
          else if e = 'f' then some '\x0c'
          else if e = 'n' then some '\n'
          else if e = 'r' then some '\r'
          else if e = 't' then some '\t'
          else none
        match simple with
        | some d =>
          match parseStrBody fuel t2 with
          | some (cs, r) => some (d :: cs, r)
          | none => none
        | none =>
          if e = 'u' then
            match t2 with
            | h1 :: h2 :: h3 :: h4 :: t3 =>
              match hexVal h1, hexVal h2, hexVal h3, hexVal h4 with
              | some a, some b, some cc, some d =>
                let n := ((a * 16 + b) * 16 + cc) * 16 + d
                if n.isValidChar then
                  match parseStrBody fuel t3 with
                  | some (cs, r) => some (Char.ofNat n :: cs, r)
                  | none => none
                else none
              | _, _, _, _ => none
            | _ => none
          else none
      | [] => none
    else if c.toNat < 0x20 then none
    else
      match parseStrBody fuel t with
      | some (cs, r) => some (c :: cs, r)
      | none => none

mutual

/-- Parse one JSON value (fuel-indexed). -/
def parseVal : Nat → List Char → Option (JVal × List Char)
  | 0, _ => none
  | fuel + 1, l =>
    match l with
    | '{' :: t =>
      (match jskipWs t with
       | '}' :: r => some (.jobj [], r)
       | t2 =>
         match parseObjItems fuel t2 with
         | some (fs, r) => some (.jobj fs, r)
         | none => none)
    | '[' :: t =>
      (match jskipWs t with
       | ']' :: r => some (.jarr [], r)
       | t2 =>
         match parseArrItems fuel t2 with
         | some (xs, r) => some (.jarr xs, r)
         | none => none)
    | '"' :: t =>
      (match parseStrBody (t.length + 1) t with
       | some (cs, r) => some (.jstr ⟨cs⟩, r)
       | none => none)
    | 't' :: 'r' :: 'u' :: 'e' :: r => some (.jbool true, r)
    | 'f' :: 'a' :: 'l' :: 's' :: 'e' :: r => some (.jbool false, r)
    | 'n' :: 'u' :: 'l' :: 'l' :: r => some (.jnull, r)
    | 'N' :: 'a' :: 'N' :: r => some (.jnum false, r)
    | t => parseNum t

/-- Comma-separated array items, ending at `]`. -/
def parseArrItems : Nat → List Char → Option (List JVal × List Char)
  | 0, _ => none
  | fuel + 1, l =>
    match parseVal fuel l with
    | none => none
    | some (v, r) =>
      match jskipWs r with
      | ',' :: r2 =>
        (match parseArrItems fuel (jskipWs r2) with
         | some (xs, r3) => some (v :: xs, r3)
         | none => none)
      | ']' :: r2 => some ([v], r2)
      | _ => none

/-- Comma-separated `"key": value` pairs, ending at `}`. -/
def parseObjItems : Nat → List Char → Option (List (String × JVal) × List Char)
  | 0, _ => none
  | fuel + 1, l =>
    match l with
    | '"' :: t =>
      (match parseStrBody (t.length + 1) t with
       | none => none
       | some (k, r) =>
         match jskipWs r with
         | ':' :: r2 =>
           (match parseVal fuel (jskipWs r2) with
            | none => none
            | some (v, r3) =>
              match jskipWs r3 with
              | ',' :: r4 =>
                (match parseObjItems fuel (jskipWs r4) with
                 | some (fs, r5) => some ((⟨k⟩, v) :: fs, r5)
                 | none => none)
              | '}' :: r4 => some ([(⟨k⟩, v)], r4)
              | _ => none)
         | _ => none)
    | _ => none

end

/-- `json.loads(s)`: parse one value surrounded by optional whitespace;
`none` on any decode error. -/
def json_loads (s : String) : Option JVal :=
  match parseVal (s.length + 1) (jskipWs s.data) with
  | some (v, r) => if jskipWs r = [] then some v else none
  | none => none

/-! ## Matching pipeline (`matcher.match_jobs`) -/

/-- A row of the active-jobs query (jobs joined with companies), restricted
to the columns `match_jobs` reads. -/
structure JobRow where
  id : String
  title : Option String
  company_name : Option String
  location : Option String
  location_type : Option String
  salary_min : Option Int
  salary_max : Option Int
  experience_min : Option Int
  experience_max : Option Int
  skills : Option String
  description : Option String
  description_short : Option String
  apply_url : Option String
  posted_at : Option String
  category : Option String
  employment_type : Option String
  source : Option String
  salary_text : Option String
  source_id : Option String
  scraped_at : Option String
  company_industry : Option String
  company_size : Option String
  is_active : Bool

/-- One entry of `scored_jobs`. -/
structure ScoredJob where
  id : String
  title : Option String
  company : String
  location : Option String
  salary_range : Option String
  match_score : Int
  match_reasons : List String
  description_short : Option String
  apply_url : Option String
  skills_match : List String
  skills_missing : List String

/-- Python truthiness of a decoded JSON value. -/
def jvalTruthy : JVal → Bool
  | .jnull => false
  | .jbool b => b
  | .jnum z => !z
  | .jstr s => s != ""
  | .jarr xs => !xs.isEmpty
  | .jobj fs => !fs.isEmpty

/-- Iterating `normalize_skill(s) for s in job_skills` over a decoded JSON
value: a list of strings iterates to itself, a string to its characters, a
dict to its keys; a list with a non-string element raises (`.strip()` on a
non-string — `AttributeError`), and numbers/booleans are not iterable
(`TypeError`).  `none` models the uncaught Python exception. -/
def jvalIterStrs : JVal → Option (List String)
  | .jarr xs => xs.mapM (fun v => match v with | .jstr s => some s | _ => none)
  | .jstr s => some (s.data.map (fun c => String.mk [c]))
  | .jobj fs => some (fs.map (fun p => p.1))
  | _ => none

/-- `row["skills"] if row["skills"] else "[]"`. -/
def rawSkills (row : JobRow) : String :=
  match row.skills with
  | none => "[]"
  | some s => if s = "" then "[]" else s

/-- Age in days of a posting: `none` when `posted_at` is falsy or the
(abstracted) `datetime` parse fails. -/
def recencyDays (parseDays : String → Option Int) (posted_at : Option String) :
    Option Int :=
  match posted_at with
  | none => none
  | some s => if s = "" then none else parseDays s

/-- `x or "Unknown"` on the company name. -/
def companyName (x : Option String) : String :=
  match x with
  | none => "Unknown"
  | some s => if s = "" then "Unknown" else s

/-- The salary-range display string of `match_jobs`
(`₹{min//1000}K-{max//1000}K/mo`, with Python truthiness on the bounds). -/
def salaryRangeStr (smin smax : Option Int) : Option String :=
  if (match smin with | some v => v != 0 | none => false) &&
     (match smax with | some v => v != 0 | none => false) then
    some ("₹" ++ toString (Int.fdiv (smin.getD 0) 1000) ++ "K-" ++
          toString (Int.fdiv (smax.getD 0) 1000) ++ "K/mo")
  else if (match smin with | some v => v != 0 | none => false) then
    some ("₹" ++ toString (Int.fdiv (smin.getD 0) 1000) ++ "K+/mo")
  else none

/-- The decoded job-skills value of a row (`json.loads` of the raw column,
with a decode error caught and degraded to the empty list). -/
def jobSkillsVal (row : JobRow) : JVal :=
  (json_loads (rawSkills row)).getD (.jarr [])

/-- The skills portion of the scoring loop: sub-score, matched, missing,
and `some (len job_skills)` when the decoded value was truthy (`none`
records that the skills summary reason is omitted).  `none` overall models
the uncaught Python exception on a truthy non-iterable-of-strings value. -/
def skillsQuad (candidate_skills : List String) (v : JVal) :
    Option (Nat × List String × List String × Option Nat) :=
  if jvalTruthy v then
    match jvalIterStrs v with
    | none => none
    | some js =>
      some ((score_skills candidate_skills js).1,
            (score_skills candidate_skills js).2.1,
            (score_skills candidate_skills js).2.2,
            some js.length)
  else some (20, [], [], none)

/-- The `Skills match: …` reason line. -/
def skillsReasonStr (matched : List String) (n : Nat) : String :=
  "Skills match: " ++ String.intercalate ", " (matched.take 5) ++ " (" ++
  toString matched.length ++ "/" ++ toString n ++ " required skills)"

/-- The reason list of one scored job: the skills summary exactly when the
candidate list is non-empty and the decoded job skills were truthy, then
location, experience, salary, recency. -/
def reasonsList (parseDays : String → Option Int) (candidate_skills : List String)
    (experience_years : Option Int) (preferred_locations : List String)
    (salary_min : Option Int) (row : JobRow) (matched : List String)
    (jsLen : Option Nat) : List String :=
  (match jsLen with
   | some n => if candidate_skills ≠ [] then [skillsReasonStr matched n] else []
   | none => []) ++
  [(score_location preferred_locations row.location row.location_type).2,
   (score_experience experience_years row.experience_min row.experience_max).2,
   (score_salary salary_min row.salary_min row.salary_max).2,
   (score_recency (recencyDays parseDays row.posted_at)).2]

/-- Assemble one `scored_jobs` entry from the skills quadruple. -/
def buildScored (parseDays : String → Option Int) (candidate_skills : List String)
    (experience_years : Option Int) (preferred_locations : List String)
    (salary_min : Option Int) (row : JobRow) (sk : Nat) (matched missing : List String)
    (jsLen : Option Nat) : ScoredJob :=
  { id := row.id
    title := row.title
    company := companyName row.company_name
    location := row.location
    salary_range := salaryRangeStr row.salary_min row.salary_max
    match_score := (sk : Int) +
      (score_location preferred_locations row.location row.location_type).1 +
      (score_salary salary_min row.salary_min row.salary_max).1 +
      (score_experience experience_years row.experience_min row.experience_max).1 +
      (score_recency (recencyDays parseDays row.posted_at)).1
    match_reasons := reasonsList parseDays candidate_skills experience_years
      preferred_locations salary_min row matched jsLen
    description_short := row.description_short
    apply_url := row.apply_url
    skills_match := matched
    skills_missing := missing.take 5 }

def scoreJob (parseDays : String → Option Int) (candidate_skills : List String)
    (experience_years : Option Int) (preferred_locations : List String)
    (salary_min : Option Int) (row : JobRow) : Option ScoredJob :=
  match skillsQuad candidate_skills (jobSkillsVal row) with
  | none => none
  | some q =>
    some (buildScored parseDays candidate_skills experience_years preferred_locations
      salary_min row q.1 q.2.1 q.2.2.1 q.2.2.2)

/-- The candidate-skill preprocessing at the top of `match_jobs`. -/
def computeCandidateSkills (skills : Option (List String))
    (resume_text : Option String) : List String :=
  let base := match skills with
    | none => []
    | some l => l
  match resume_text with
  | some t =>
    if t ≠ "" then pySet (normalize_skills (base ++ extract_skills_from_text t))
    else normalize_skills base
  | none => normalize_skills base

/-- Stable insertion for the descending-by-score sort
(`scored_jobs.sort(key=..., reverse=True)` is stable). -/
def insertByScore (x : ScoredJob) : List ScoredJob → List ScoredJob
  | [] => [x]
  | y :: ys =>
    if x.match_score ≥ y.match_score then x :: y :: ys else y :: insertByScore x ys

/-- Stable descending sort by `match_score`. -/
def sortByScoreDesc (l : List ScoredJob) : List ScoredJob := l.foldr insertByScore []

/-- The session data returned by `match_jobs` (the wall-clock
`query_time_ms` field is outside the model). -/
structure MatchResult where
  match_count : Nat
  jobs : List ScoredJob
  extracted_skills : List String

/-- The `for row in rows` scoring loop: `none` as soon as one row raises. -/
def scoreAll (parseDays : String → Option Int) (candidate_skills : List String)
    (experience_years : Option Int) (preferred_locations : List String)
    (salary_min : Option Int) : List JobRow → Option (List ScoredJob)
  | [] => some []
  | r :: rs =>
    match scoreJob parseDays candidate_skills experience_years preferred_locations
        salary_min r with
    | none => none
    | some s =>
      match scoreAll parseDays candidate_skills experience_years preferred_locations
          salary_min rs with
      | none => none
      | some ss => some (s :: ss)

/-- `preferred_locations or []`. -/
def pyLocs (x : Option (List String)) : List String :=
  match x with
  | none => []
  | some l => l

/-- `match_jobs` over an already-fetched pool of active rows.  `none` models
an uncaught per-row exception failing the whole request. -/
def match_jobs (parseDays : String → Option Int) (skills : Option (List String))
    (experience_years : Option Int) (preferred_locations : Option (List String))
    (salary_min : Option Int) (resume_text : Option String) (limit : Nat)
    (rows : List JobRow) : Option MatchResult :=
  let cskills := computeCandidateSkills skills resume_text
  match scoreAll parseDays cskills experience_years (pyLocs preferred_locations)
      salary_min rows with
  | none => none
  | some scored =>
    some { match_count := (scored.filter (fun j => j.match_score ≥ 30)).length
           jobs := (sortByScoreDesc scored).take limit
           extracted_skills := cskills }

/-! ## Search (`services/search.py`) -/

/-- The FTS query sanitizer of `_fts_search`:
`q.replace(...).replace(...).strip()` then `re.sub(r"[^\\w\\s\\-]", " ", .).strip()`. -/
def sanitize_fts (q : String) : String :=
  let noQuotes := q.data.filter (fun c => c ≠ '"' && c ≠ '\'')
  let subbed := (stripChars noQuotes).map
    (fun c => if isWordChar c || pyIsSpace c || c = '-' then c else ' ')
  ⟨stripChars subbed⟩

/-- The structured filters shared by both search strategies. -/
structure SearchFilters where
  title : Option String := none
  location : Option String := none
  location_type : Option String := none
  company : Option String := none
  skills : Option (List String) := none
  salary_min : Option Int := none
  salary_max : Option Int := none
  experience_min : Option Int := none
  experience_max : Option Int := none
  category : Option String := none
  employment_type : Option String := none
  posted_after : Option String := none

/-- SQLite `LIKE`, ASCII case-insensitive, with `%` and `_` wildcards. -/
def likeMatch : List Char → List Char → Bool
  | [], [] => true
  | [], _ :: _ => false
  | '%' :: p, s =>
    likeMatch p s ||
      (match s with
       | [] => false
       | _ :: t => likeMatch ('%' :: p) t)
  | '_' :: p, _ :: s => likeMatch p s
  | '_' :: _, [] => false
  | c :: p, d :: s => pyLowerChar c = pyLowerChar d && likeMatch p s
  | _ :: _, [] => false
  termination_by p s => (p.length, s.length)

/-- `LOWER(col) LIKE '%needle%'` (a NULL column never matches). -/
def likeContains (needle : String) (col : Option String) : Bool :=
  match col with
  | none => false
  | some s => likeMatch ("%" ++ needle ++ "%").data (pyLower s).data

/-- Apply a filter only when its argument is truthy. -/
def whenStr (x : Option String) (f : String → Bool) : Bool :=
  match x with
  | none => true
  | some s => if s = "" then true else f s

/-- `LOWER(col) = val` (NULL never matches). -/
def eqLower (col : Option String) (v : String) : Bool :=
  match col with
  | none => false
  | some s => pyLower s == pyLower v

/-- The conjunction of WHERE clauses added by `_add_filters` for one row. -/
def rowMatchesFilters (fl : SearchFilters) (row : JobRow) : Bool :=
  whenStr fl.title (fun t => likeContains (pyLower t) row.title) &&
  whenStr fl.location (fun t => likeContains (pyLower t) row.location) &&
  whenStr fl.location_type (fun t => eqLower row.location_type t) &&
  whenStr fl.company (fun t => likeContains (pyLower t) row.company_name) &&
  (match fl.skills with
   | none => true
   | some l => l.all (fun sk => likeContains (pyLower sk) row.skills)) &&
  (match fl.salary_min with
   | none => true
   | some x => match row.salary_max with
     | none => true
     | some v => v ≥ x) &&
  (match fl.salary_max with
   | none => true
   | some x => match row.salary_min with
     | none => true
     | some v => v ≤ x) &&
  (match fl.experience_min with
   | none => true
   | some x => match row.experience_max with
     | none => true
     | some v => v ≥ x) &&
  (match fl.experience_max with
   | none => true
   | some x => match row.experience_min with
     | none => true
     | some v => v ≤ x) &&
  whenStr fl.category (fun t => eqLower row.category t) &&
  whenStr fl.employment_type (fun t => eqLower row.employment_type t) &&
  whenStr fl.posted_after (fun t =>
    match row.posted_at with
    | none => false
    | some s => !strLtB s.data t.data)

/-- Stable insertion sort of rows by a "may sit before" relation. -/
def insertRowBy (before : JobRow → JobRow → Bool) (x : JobRow) :
    List JobRow → List JobRow
  | [] => [x]
  | y :: ys => if before x y then x :: y :: ys else y :: insertRowBy before x ys

def sortRowsBy (before : JobRow → JobRow → Bool) (l : List JobRow) : List JobRow :=
  l.foldr (insertRowBy before) []

/-- `x ≥ y` on a nullable TEXT column (SQLite treats NULL as smallest, so
`DESC` puts NULL rows last). -/
def optStrGE (x y : Option String) : Bool :=
  match x, y with
  | none, none => true
  | none, some _ => false
  | some _, none => true
  | some a, some b => !strLtB a.data b.data

/-- `x ≥ y` on a nullable INTEGER column. -/
def optIntGE (x y : Option Int) : Bool :=
  match x, y with
  | none, none => true
  | none, some _ => false
  | some _, none => true
  | some a, some b => a ≥ b

/-- `ORDER BY` as chosen by `_get_order_by` (`fts.rank` ascending when
relevance-sorting the FTS path, most-recent-first otherwise; `salary` sorts
by `salary_max DESC`).  The FTS rank of a row is an external parameter. -/
def orderRows (sort : String) (hasFts : Bool) (ftsRank : JobRow → Int)
    (rows : List JobRow) : List JobRow :=
  if sort = "relevance" ∧ hasFts then
    sortRowsBy (fun x y => ftsRank x ≤ ftsRank y) rows
  else if sort = "posted_at" then
    sortRowsBy (fun x y => optStrGE x.posted_at y.posted_at) rows
  else if sort = "salary" then
    sortRowsBy (fun x y => optIntGE x.salary_max y.salary_max) rows
  else
    sortRowsBy (fun x y => optStrGE x.posted_at y.posted_at) rows

/-- The job dict produced by `_row_to_job`. -/
structure SearchJob where
  id : String
  title : Option String
  company_name : String
  company_industry : Option String
  company_size : Option String
  location : Option String
  location_type : Option String
  salary_range : Option String
  salary_min : Option Int
  salary_max : Option Int
  experience : Option String
  experience_min : Option Int
  experience_max : Option Int
  skills : JVal
  category : Option String
  employment_type : Option String
  description : Option String
  description_short : Option String
  posted_at : Option String
  apply_url : Option String
  source : Option String
  salary_text : Option String
  source_id : Option String
  scraped_at : Option String
  is_active : Bool

/-- `_row_to_job(row)`. -/
def row_to_job (row : JobRow) : SearchJob :=
  let skills_list := (json_loads (rawSkills row)).getD (.jarr [])
  let salary_range :=
    if (match row.salary_min with | some v => v != 0 | none => false) &&
       (match row.salary_max with | some v => v != 0 | none => false) then
      some ("₹" ++ fmtComma (row.salary_min.getD 0) ++ " - ₹" ++
            fmtComma (row.salary_max.getD 0) ++ "/month")
    else if (match row.salary_min with | some v => v != 0 | none => false) then
      some ("₹" ++ fmtComma (row.salary_min.getD 0) ++ "+/month")
    else if (match row.salary_max with | some v => v != 0 | none => false) then
      some ("Up to ₹" ++ fmtComma (row.salary_max.getD 0) ++ "/month")
    else none
  let experience :=
    match row.experience_min, row.experience_max with
    | some a, some b => some (toString a ++ "-" ++ toString b ++ " years")
    | some a, none => some (toString a ++ "+ years")
    | none, some b => some ("0-" ++ toString b ++ " years")
    | none, none => none
  { id := row.id
    title := row.title
    company_name := companyName row.company_name
    company_industry := row.company_industry
    company_size := row.company_size
    location := row.location
    location_type := row.location_type
    salary_range := salary_range
    salary_min := row.salary_min
    salary_max := row.salary_max
    experience := experience
    experience_min := row.experience_min
    experience_max := row.experience_max
    skills := skills_list
    category := row.category
    employment_type := row.employment_type
    description := row.description
    description_short := row.description_short
    posted_at := row.posted_at
    apply_url := row.apply_url
    source := row.source
    salary_text := row.salary_text
    source_id := row.source_id
    scraped_at := row.scraped_at
    is_active := row.is_active }

/-- `_filter_search`: conjunctive filtering over active rows, count before
pagination, order, paginate, convert.  (The elapsed-ms component of the
returned triple is wall-clock time and outside the model.) -/
def filter_search (fl : SearchFilters) (sort : String) (limit offset : Nat)
    (rows : List JobRow) : List SearchJob × Nat :=
  let matched := rows.filter (fun r => r.is_active && rowMatchesFilters fl r)
  let total := matched.length
  let ordered := orderRows sort false (fun _ => 0) matched
  (((ordered.drop offset).take limit).map row_to_job, total)

/-- `_fts_search`: sanitize the query; on an empty result fall back to
`_filter_search`, otherwise constrain by the (externally provided) FTS match
predicate and rank. -/
def fts_search (ftsMatch : String → JobRow → Bool) (ftsRank : JobRow → Int)
    (q : String) (fl : SearchFilters) (sort : String) (limit offset : Nat)
    (rows : List JobRow) : List SearchJob × Nat :=
  let fts_query := sanitize_fts q
  if fts_query = "" then filter_search fl sort limit offset rows
  else
    let matched := rows.filter
      (fun r => r.is_active && ftsMatch fts_query r && rowMatchesFilters fl r)
    let total := matched.length
    let ordered := orderRows sort true ftsRank matched
    (((ordered.drop offset).take limit).map row_to_job, total)

/-- `search_jobs`: free-text path when `q` is truthy, else the structured
path. -/
def search_jobs (ftsMatch : String → JobRow → Bool) (ftsRank : JobRow → Int)
    (q : Option String) (fl : SearchFilters) (sort : String) (limit offset : Nat)
    (rows : List JobRow) : List SearchJob × Nat :=
  match q with
  | some s =>
    if s ≠ "" then fts_search ftsMatch ftsRank s fl sort limit offset rows
    else filter_search fl sort limit offset rows
  | none => filter_search fl sort limit offset rows

/-! ## Spec-side reference definitions and concrete fixtures

The `*_claimed` functions transcribe the *claim text* (for refinement
comparison with the code-derived functions above); the `*_amended` functions
transcribe the amended reading in which a present-but-zero bound behaves
like a missing one, exactly as Python truthiness makes the code behave. -/

/-- The experience rule as the claim states it: a *missing* job floor is 0
and a *missing* job ceiling is 99; present bounds (zero included) are used
as written, and the four cases apply in order. -/
def score_experience_claimed (cy jmin jmax : Option Int) : Int :=
  match cy with
  | none => 8
  | some y =>
    if jmin = none ∧ jmax = none then 8
    else
      let lo := jmin.getD 0
      let hi := jmax.getD 99
      if lo ≤ y ∧ y ≤ hi then 15
      else if y ≥ lo - 1 ∧ y ≤ hi + 1 then 10
      else if y > hi then 7
      else 3

/-- The experience rule amended: a missing *or zero* floor is treated as 0
and a missing *or zero* ceiling as 99. -/
def score_experience_amended (cy jmin jmax : Option Int) : Int :=
  match cy with
  | none => 8
  | some y =>
    if jmin = none ∧ jmax = none then 8
    else
      let lo := pyOrI jmin 0
      let hi := pyOrI jmax 99
      if lo ≤ y ∧ y ≤ hi then 15
      else if y ≥ lo - 1 ∧ y ≤ hi + 1 then 10
      else if y > hi then 7
      else 3

/-- The salary rule as the claim states it: the effective top figure is the
ceiling when present, else the floor when present, else 0 (`80%` compared
exactly). -/
def score_salary_claimed (cm jmin jmax : Option Int) : Int :=
  match cm with
  | none => 8
  | some c =>
    if jmin = none ∧ jmax = none then 8
    else
      let top := match jmax with
        | some t => t
        | none => match jmin with
          | some t => t
          | none => 0
      if top ≥ c then 15
      else if 5 * top ≥ 4 * c then 10
      else 3

/-- The salary rule amended: the effective top figure is the ceiling when
present *and nonzero*, else the floor when present *and nonzero*, else 0. -/
def score_salary_amended (cm jmin jmax : Option Int) : Int :=
  match cm with
  | none => 8
  | some c =>
    if jmin = none ∧ jmax = none then 8
    else
      let top := pyOrI jmax (pyOrI jmin 0)
      if top ≥ c then 15
      else if 5 * top ≥ 4 * c then 10
      else 3

/-- A baseline all-null active row. -/
def baseRow : JobRow :=
  { id := "j0", title := some "Engineer", company_name := none, location := none,
    location_type := none, salary_min := none, salary_max := none,
    experience_min := none, experience_max := none, skills := none,
    description := none, description_short := none, apply_url := none,
    posted_at := none, category := none, employment_type := none,
    source := none, salary_text := none, source_id := none, scraped_at := none,
    company_industry := none, company_size := none, is_active := true }

/-- A fixture clock: the one timestamp used by the fixtures parses to an age
of 40 days; everything else is unparsable. -/
def demoParseDays : String → Option Int :=
  fun s => if s = "2024-01-01T00:00:00" then some 40 else none

/-- Against the demo profile (skills `["python"]`, 0 years, `["delhi"]`,
floor 100000) this row scores 20+10+8+8+5 = 51. -/
def goodRow : JobRow := { baseRow with id := "good" }

/-- Against the demo profile this row scores 0+5+3+3+2 = 13. -/
def lowRow : JobRow :=
  { baseRow with
    id := "low"
    skills := some "[\"docker\"]"
    location := some "Mumbai"
    location_type := some "onsite"
    salary_min := some 10000
    salary_max := some 20000
    experience_min := some 5
    experience_max := some 10
    posted_at := some "2024-01-01T00:00:00" }

/-- A row whose stored skill column is valid JSON but not a list. -/
def corruptRow : JobRow := { baseRow with id := "corrupt", skills := some "5" }

/-- A row whose stored skill column is not JSON at all. -/
def garbageRow : JobRow := { baseRow with id := "garbage", skills := some "not json" }

/-- The entry a row with undecodable skills degrades to: skills sub-score 20,
no matched/missing skills, no skills reason. -/
def degradedScored (parseDays : String → Option Int) (candidate_skills : List String)
    (experience_years : Option Int) (preferred_locations : List String)
    (salary_min : Option Int) (row : JobRow) : ScoredJob :=
  buildScored parseDays candidate_skills experience_years preferred_locations
    salary_min row 20 [] [] none

/-! ## Helper lemmas -/

theorem pySet_ne_nil {l : List String} (h : l ≠ []) : pySet l ≠ [] := by
  cases l with
  | nil => exact absurd rfl h
  | cons x xs => simp [pySet]

theorem normSet_ne_nil {l : List String} (h : l ≠ []) : normSet l ≠ [] := by
  unfold normSet
  exact pySet_ne_nil (by simpa using h)

theorem score_skills_fst_le (cand job : List String) :
    (score_skills cand job).1 ≤ 40 := by
  by_cases h : job = []
  · simp [score_skills, h]
  · have hset : normSet job ≠ [] := normSet_ne_nil h
    simp only [score_skills, if_neg h, if_neg hset]
    show 40 * (jMatched cand job).length / (normSet job).length ≤ 40
    have hm : (jMatched cand job).length ≤ (normSet job).length :=
      List.length_filter_le _ _
    have hj : 0 < (normSet job).length := List.length_pos.mpr hset
    calc 40 * (jMatched cand job).length / (normSet job).length
        ≤ 40 * (normSet job).length / (normSet job).length :=
          Nat.div_le_div_right (Nat.mul_le_mul_left 40 hm)
      _ = 40 := by rw [Nat.mul_div_cancel _ hj]

/-! ## C1: the skills sub-score -/

/-- C1: when the job declares no skills the sub-score is exactly 20 with
empty matched/missing; otherwise, over the normalized deduplicated sets,
matched = candidate ∩ job and missing = job − candidate (both returned
sorted), the sub-score is `⌊40·|matched| / |job set|⌋` and never exceeds
40; candidate `["python","sql"]` against job `["python","sql","docker"]`
scores 26 with matched `{python, sql}` and missing `{docker}`. -/
theorem skills_subscore_spec (cand job : List String) :
    (job = [] → score_skills cand job = (20, [], [])) ∧
    (job ≠ [] →
      score_skills cand job =
        (40 * (jMatched cand job).length / (normSet job).length,
         sortStrs (jMatched cand job), sortStrs (jMissing cand job))) ∧
    (score_skills cand job).1 ≤ 40 ∧
    score_skills ["python", "sql"] ["python", "sql", "docker"] =
      (26, ["python", "sql"], ["docker"]) := by
  refine ⟨fun h => by subst h; rfl, fun h => ?_, score_skills_fst_le cand job, by decide⟩
  simp only [score_skills, if_neg h, if_neg (normSet_ne_nil h)]

/-- Witness for `skills_subscore_spec` at concrete inputs. -/
theorem skills_subscore_spec_witness :
    score_skills ["go"] [] = (20, [], []) ∧
    score_skills ["golang", "js"] ["rust", "go"] = (20, ["go"], ["rust"]) := by
  constructor
  · exact (skills_subscore_spec ["go"] []).1 rfl
  · have h := (skills_subscore_spec ["golang", "js"] ["rust", "go"]).2.1 (by decide)
    rw [h]
    decide

/-! ## C3: the experience sub-score -/

/-- C3 counterexample: a job declaring `experience_min = experience_max = 0`
(present, zero bounds) with a 5-year candidate.  The claim computes
floor 0 / ceiling 0 and hence "above the ceiling" = 7; the code's
`job_max or 99` turns the zero ceiling into 99 and returns 15. -/
theorem experience_zero_ceiling_counterexample :
    (score_experience (some 5) (some 0) (some 0)).1 = 15 ∧
    score_experience_claimed (some 5) (some 0) (some 0) = 7 := by decide

/-- C3 amended: missing candidate years or both bounds missing give 8;
otherwise, with a missing *or zero* floor treated as 0 and a missing *or
zero* ceiling treated as 99, in-range gives 15, within one year of the
interval 10, above it 7, below it 3. -/
theorem experience_subscore_amended (cy jmin jmax : Option Int) :
    (score_experience cy jmin jmax).1 = score_experience_amended cy jmin jmax := by
  cases cy with
  | none => rfl
  | some y =>
    by_cases h : jmin = none ∧ jmax = none
    · obtain ⟨h1, h2⟩ := h
      subst h1; subst h2; rfl
    · simp only [score_experience, score_experience_amended, Option.getD_some]
      rw [if_neg (by simp [h]), if_neg h]
      split_ifs <;> rfl

/-- Witness for `experience_subscore_amended`. -/
theorem experience_subscore_amended_witness :
    (score_experience (some 3) (some 1) (some 4)).1 =
      score_experience_amended (some 3) (some 1) (some 4) ∧
    (score_experience (some 3) (some 1) (some 4)).1 = 15 :=
  ⟨experience_subscore_amended (some 3) (some 1) (some 4), by decide⟩

/-! ## C4: the salary sub-score -/

/-- C4 counterexample: a job with `salary_min = 100000` and a present zero
`salary_max`, against candidate floor 50000.  The claim's top figure is the
ceiling 0, giving 3; the code's `job_max or job_min or 0` skips the zero
ceiling, uses 100000, and returns 15. -/
theorem salary_zero_ceiling_counterexample :
    (score_salary (some 50000) (some 100000) (some 0)).1 = 15 ∧
    score_salary_claimed (some 50000) (some 100000) (some 0) = 3 := by decide

/-- C4 amended: a missing candidate floor or two missing job bounds give 8
with the insufficient-data reason (scenario B); otherwise the effective top
figure is the ceiling when present *and nonzero*, else the floor when
present *and nonzero*, else 0, and top ≥ floor gives 15, top ≥ 80% of
floor gives 10, else 3 (the float `0.8` comparison is the exact
`5·top ≥ 4·floor`). -/
theorem salary_subscore_amended (cm jmin jmax : Option Int) :
    (score_salary cm jmin jmax).1 = score_salary_amended cm jmin jmax ∧
    score_salary (some 50000) none none =
      (8, "Salary: Not enough data to compare") := by
  refine ⟨?_, by decide⟩
  cases cm with
  | none => rfl
  | some c =>
    by_cases h : jmin = none ∧ jmax = none
    · obtain ⟨h1, h2⟩ := h
      subst h1; subst h2; rfl
    · simp only [score_salary, score_salary_amended, Option.getD_some, salaryTop]
      rw [if_neg (by simp [h]), if_neg h]
      split_ifs <;> rfl

/-- Witness for `salary_subscore_amended`. -/
theorem salary_subscore_amended_witness :
    (score_salary (some 40000) (some 20000) (some 45000)).1 =
      score_salary_amended (some 40000) (some 20000) (some 45000) ∧
    (score_salary (some 40000) (some 20000) (some 45000)).1 = 15 :=
  ⟨(salary_subscore_amended (some 40000) (some 20000) (some 45000)).1, by decide⟩

/-! ## C6: idempotence of skill normalization -/

theorem charEq_iff_toNat {a b : Char} : a = b ↔ a.toNat = b.toNat :=
  ⟨fun h => by rw [h], fun h => Char.ext (UInt32.ext h)⟩

theorem charLe_iff {a b : Char} : a ≤ b ↔ a.toNat ≤ b.toNat := Iff.rfl

theorem toNat_ofNat_small {n : Nat} (h : n < 55296) : (Char.ofNat n).toNat = n := by
  have : n.isValidChar := Or.inl h
  simp [Char.ofNat, this, Char.toNat, Char.ofNatAux]
  rfl

theorem pyIsSpace_iff (c : Char) :
    pyIsSpace c = true ↔ (c.toNat = 32 ∨ c.toNat = 9 ∨ c.toNat = 10 ∨
      c.toNat = 13 ∨ c.toNat = 11 ∨ c.toNat = 12) := by
  unfold pyIsSpace
  simp only [Bool.or_eq_true, decide_eq_true_eq, charEq_iff_toNat]
  tauto

theorem pyIsSpace_pyLowerChar (c : Char) : pyIsSpace (pyLowerChar c) = pyIsSpace c := by
  unfold pyLowerChar
  by_cases h : 'A' ≤ c ∧ c ≤ 'Z'
  · rw [if_pos h]
    have hA : (65 : Nat) ≤ c.toNat := charLe_iff.mp h.1
    have hZ : c.toNat ≤ 90 := charLe_iff.mp h.2
    have hv : (Char.ofNat (c.toNat + 32)).toNat = c.toNat + 32 :=
      toNat_ofNat_small (by omega)
    have h1 : pyIsSpace (Char.ofNat (c.toNat + 32)) = false := by
      rw [← Bool.not_eq_true, pyIsSpace_iff, hv]
      omega
    have h2 : pyIsSpace c = false := by
      rw [← Bool.not_eq_true, pyIsSpace_iff]
      omega
    rw [h1, h2]
  · rw [if_neg h]

theorem pyLowerChar_idem (c : Char) : pyLowerChar (pyLowerChar c) = pyLowerChar c := by
  unfold pyLowerChar
  by_cases h : 'A' ≤ c ∧ c ≤ 'Z'
  · rw [if_pos h]
    have hA : (65 : Nat) ≤ c.toNat := charLe_iff.mp h.1
    have hZ : c.toNat ≤ 90 := charLe_iff.mp h.2
    have hv : (Char.ofNat (c.toNat + 32)).toNat = c.toNat + 32 :=
      toNat_ofNat_small (by omega)
    have hne : ¬('A' ≤ Char.ofNat (c.toNat + 32) ∧ Char.ofNat (c.toNat + 32) ≤ 'Z') := by
      intro hc
      have h2 : (Char.ofNat (c.toNat + 32)).toNat ≤ 90 := charLe_iff.mp hc.2
      omega
    rw [if_neg hne]
  · rw [if_neg h, if_neg h]

theorem dropWhile_dropWhile (p : Char → Bool) (l : List Char) :
    (l.dropWhile p).dropWhile p = l.dropWhile p := by
  induction l with
  | nil => rfl
  | cons c t ih =>
    by_cases h : p c
    · simp [List.dropWhile, h, ih]
    · simp [List.dropWhile, h]

theorem head?_dropWhile_false (p : Char → Bool) (l : List Char) :
    ∀ a, (l.dropWhile p).head? = some a → p a = false := by
  induction l with
  | nil => intro a h; simp at h
  | cons c t ih =>
    intro a h
    by_cases hc : p c
    · rw [List.dropWhile_cons_of_pos hc] at h
      exact ih a h
    · rw [List.dropWhile_cons_of_neg hc] at h
      simp at h
      subst h
      simpa using hc

theorem dropWhile_eq_self_of_head (p : Char → Bool) (l : List Char)
    (h : ∀ a, l.head? = some a → p a = false) : l.dropWhile p = l := by
  cases l with
  | nil => rfl
  | cons c t =>
    have := h c (by rfl)
    simp [List.dropWhile, this]

theorem getLast?_dropWhile (p : Char → Bool) (l : List Char)
    (h : l.dropWhile p ≠ []) : (l.dropWhile p).getLast? = l.getLast? := by
  induction l with
  | nil => simp at h
  | cons c t ih =>
    by_cases hc : p c
    · rw [List.dropWhile_cons_of_pos hc] at h ⊢
      have ht : t ≠ [] := by
        intro he
        subst he
        simp at h
      rw [ih h]
      cases t with
      | nil => exact absurd rfl ht
      | cons d u => simp [List.getLast?_cons_cons]
    · rw [List.dropWhile_cons_of_neg hc]

theorem stripChars_idem (l : List Char) : stripChars (stripChars l) = stripChars l := by
  unfold stripChars
  set p := pyIsSpace
  set m := l.dropWhile p with hm
  set n := m.reverse.dropWhile p with hn
  by_cases hnil : n = []
  · rw [hnil]
    simp
  · have hstep1 : n.reverse.dropWhile p = n.reverse := by
      apply dropWhile_eq_self_of_head
      intro a ha
      rw [List.head?_reverse] at ha
      rw [getLast?_dropWhile p m.reverse hnil, List.getLast?_reverse] at ha
      exact head?_dropWhile_false p l a ha
    rw [hstep1, List.reverse_reverse]
    have hstep2 : n.dropWhile p = n := by
      apply dropWhile_eq_self_of_head
      intro a ha
      exact head?_dropWhile_false p m.reverse a ha
    rw [hstep2]

theorem dropWhile_map_lower (l : List Char) :
    (l.map pyLowerChar).dropWhile pyIsSpace =
      (l.dropWhile pyIsSpace).map pyLowerChar := by
  induction l with
  | nil => rfl
  | cons c t ih =>
    by_cases h : pyIsSpace c
    · have h2 : pyIsSpace (pyLowerChar c) = true := by
        rw [pyIsSpace_pyLowerChar]; exact h
      simp [List.dropWhile, h, h2, ih]
    · have h2 : pyIsSpace (pyLowerChar c) = false := by
        rw [pyIsSpace_pyLowerChar]; simpa using h
      simp [List.dropWhile, h2, h]

theorem stripChars_map_lower (l : List Char) :
    stripChars (l.map pyLowerChar) = (stripChars l).map pyLowerChar := by
  unfold stripChars
  rw [dropWhile_map_lower, ← List.map_reverse, dropWhile_map_lower, List.map_reverse]

/-- The canonical preprocessing `skill.strip().lower()`, on character lists. -/
theorem canon_idem (l : List Char) :
    (stripChars ((stripChars l).map pyLowerChar)).map pyLowerChar =
      (stripChars l).map pyLowerChar := by
  rw [stripChars_map_lower, stripChars_idem, List.map_map]
  have : pyLowerChar ∘ pyLowerChar = pyLowerChar := by
    funext c
    exact pyLowerChar_idem c
  rw [this]

theorem pyCanon_idem (s : String) :
    pyLower (pyStrip (pyLower (pyStrip s))) = pyLower (pyStrip s) := by
  show String.mk _ = String.mk _
  exact congrArg String.mk (canon_idem s.data)

theorem lookup_mem {l : List (String × String)} {k v : String}
    (h : l.lookup k = some v) : (k, v) ∈ l := by
  induction l with
  | nil => simp at h
  | cons q t ih =>
    rw [List.lookup] at h
    cases hbeq : (k == q.1) with
    | false =>
      rw [hbeq] at h
      exact List.mem_cons_of_mem _ (ih h)
    | true =>
      rw [hbeq] at h
      have hk : k = q.1 := by simpa using hbeq
      injection h with hv
      have heq : (k, v) = q := by
        rw [hk, ← hv]
      rw [heq]
      exact List.mem_cons_self _ _

set_option maxRecDepth 8192 in
theorem alias_values_fixed : ∀ p ∈ SKILL_ALIASES, normalize_skill p.2 = p.2 := by
  decide

/-- C6: normalization is idempotent on every token, and every canonical
token of the alias table is a fixed point of normalization. -/
theorem normalize_skill_idem :
    (∀ t, normalize_skill (normalize_skill t) = normalize_skill t) ∧
    (∀ p ∈ SKILL_ALIASES, normalize_skill p.2 = p.2) := by
  refine ⟨fun t => ?_, alias_values_fixed⟩
  unfold normalize_skill
  cases hl : SKILL_ALIASES.lookup (pyLower (pyStrip t)) with
  | none =>
    simp only [hl, Option.getD_none]
    rw [pyCanon_idem, hl]
    rfl
  | some v =>
    simp only [hl, Option.getD_some]
    have hv := alias_values_fixed _ (lookup_mem hl)
    simpa [normalize_skill] using hv

/-- Witness for `normalize_skill_idem` at concrete tokens. -/
theorem normalize_skill_idem_witness :
    normalize_skill (normalize_skill " Py ") = normalize_skill " Py " ∧
    normalize_skill "nodejs" = "nodejs" :=
  ⟨normalize_skill_idem.1 " Py ",
   normalize_skill_idem.2 ("node.js", "nodejs") (by decide)⟩

/-! ## C9: single-character surface forms in extraction -/

/-- C9 counterexample: the text `"we code in c daily"` contains the
standalone word `c` — the word-boundary search itself finds it — yet
extraction yields no skill at all, because the allow-list names `"c"` but
the alias table has no `"c"` key (and so no canonical C token exists). -/
theorem single_char_c_counterexample :
    extract_skills_from_text "we code in c daily" = [] ∧
    wordBoundedSearch "c".data none "we code in c daily".data = true := by decide

/-- C9 amended: single-word surface forms are scanned with word-boundary
matching; single-character forms are skipped unless in the allow-list
`("r", "c")`; but the only single-character key of the alias table is
`"r"`, so a standalone `r` yields the canonical token `r` while a
standalone `c` yields nothing; word-boundary matching rejects the
word-internal occurrence of `rust` in `trust`. -/
theorem extraction_single_char_spec :
    (∀ k : String, k.length ≤ 1 → singleKeyScanned k = (k == "r" || k == "c")) ∧
    (SKILL_ALIASES.filter (fun p => p.1.length ≤ 1)).map (fun p => p.1) = ["r"] ∧
    extract_skills_from_text "we code in r daily" = ["r"] ∧
    extract_skills_from_text "written in c" = [] ∧
    extract_skills_from_text "i trust systems" = [] ∧
    extract_skills_from_text "rust is great" = ["rust"] := by
  refine ⟨fun k h => ?_, by decide, by decide, by decide, by decide, by decide⟩
  simp [singleKeyScanned, h]

/-- Witness for `extraction_single_char_spec` at a non-allow-listed
single-character key. -/
theorem extraction_single_char_spec_witness :
    singleKeyScanned "x" = ("x" == "r" || "x" == "c") ∧
    singleKeyScanned "x" = false :=
  ⟨extraction_single_char_spec.1 "x" (by decide), by decide⟩

/-! ## C2: total score bounds -/

theorem score_location_bounds (a : List String) (b c : Option String) :
    5 ≤ (score_location a b c).1 ∧ (score_location a b c).1 ≤ 20 := by
  unfold score_location
  split_ifs <;> norm_num

theorem score_salary_bounds (a b c : Option Int) :
    3 ≤ (score_salary a b c).1 ∧ (score_salary a b c).1 ≤ 15 := by
  unfold score_salary
  split_ifs <;> norm_num

theorem score_experience_bounds (a b c : Option Int) :
    3 ≤ (score_experience a b c).1 ∧ (score_experience a b c).1 ≤ 15 := by
  unfold score_experience
  split_ifs <;> norm_num

theorem score_recency_bounds (d : Option Int) :
    2 ≤ (score_recency d).1 ∧ (score_recency d).1 ≤ 10 := by
  cases d with
  | none => norm_num [score_recency]
  | some v =>
    simp only [score_recency]
    split_ifs <;> norm_num

theorem skillsQuad_fst_le {cs : List String} {v : JVal}
    {q : Nat × List String × List String × Option Nat}
    (h : skillsQuad cs v = some q) : q.1 ≤ 40 := by
  unfold skillsQuad at h
  split at h
  · cases hit : jvalIterStrs v with
    | none =>
      rw [hit] at h
      exact absurd h (by simp)
    | some js =>
      rw [hit] at h
      injection h with h'
      rw [← h']
      exact score_skills_fst_le cs js
  · injection h with h'
    rw [← h']
    decide

/-- C2: whenever a row is scored without raising, the total match score is
within [3,100] (indeed within [13,100]), and no component sub-score is ever
negative. -/
theorem total_score_bounds (pd : String → Option Int) (cs : List String)
    (ey : Option Int) (pl : List String) (sm : Option Int) (row : JobRow)
    (res : ScoredJob) (h : scoreJob pd cs ey pl sm row = some res) :
    (3 ≤ res.match_score ∧ res.match_score ≤ 100) ∧
    (∀ a b c, 0 ≤ (score_location a b c).1) ∧
    (∀ a b c, 0 ≤ (score_salary a b c).1) ∧
    (∀ a b c, 0 ≤ (score_experience a b c).1) ∧
    (∀ d, 0 ≤ (score_recency d).1) := by
  refine ⟨?_,
    fun a b c => le_trans (by norm_num) (score_location_bounds a b c).1,
    fun a b c => le_trans (by norm_num) (score_salary_bounds a b c).1,
    fun a b c => le_trans (by norm_num) (score_experience_bounds a b c).1,
    fun d => le_trans (by norm_num) (score_recency_bounds d).1⟩
  unfold scoreJob at h
  cases hq : skillsQuad cs (jobSkillsVal row) with
  | none =>
    rw [hq] at h
    exact absurd h (by simp)
  | some q =>
    rw [hq] at h
    injection h with h'
    have hscore : res.match_score = (q.1 : Int) +
        (score_location pl row.location row.location_type).1 +
        (score_salary sm row.salary_min row.salary_max).1 +
        (score_experience ey row.experience_min row.experience_max).1 +
        (score_recency (recencyDays pd row.posted_at)).1 := by
      rw [← h']
      rfl
    have hsk := skillsQuad_fst_le hq
    have hloc := score_location_bounds pl row.location row.location_type
    have hsal := score_salary_bounds sm row.salary_min row.salary_max
    have hexp := score_experience_bounds ey row.experience_min row.experience_max
    have hrec := score_recency_bounds (recencyDays pd row.posted_at)
    rw [hscore]
    omega

/-- Witness for `total_score_bounds` on a concrete row. -/
theorem total_score_bounds_witness :
    3 ≤ (buildScored demoParseDays [] none [] none baseRow 20 [] [] none).match_score ∧
    (buildScored demoParseDays [] none [] none baseRow 20 [] [] none).match_score ≤ 100 :=
  (total_score_bounds demoParseDays [] none [] none baseRow
    (buildScored demoParseDays [] none [] none baseRow 20 [] [] none) rfl).1

/-! ## C7: the reason list -/

theorem isPrefixOf_self_append (l t : List Char) : l.isPrefixOf (l ++ t) = true := by
  induction l with
  | nil => simp [List.isPrefixOf]
  | cons c cs ih => simp [List.isPrefixOf, ih]

/-- Every successful `scoreJob` factors through a skills quadruple. -/
theorem scoreJob_inv {pd : String → Option Int} {cs : List String}
    {ey : Option Int} {pl : List String} {sm : Option Int} {row : JobRow}
    {res : ScoredJob} (h : scoreJob pd cs ey pl sm row = some res) :
    ∃ q, skillsQuad cs (jobSkillsVal row) = some q ∧
      res = buildScored pd cs ey pl sm row q.1 q.2.1 q.2.2.1 q.2.2.2 := by
  unfold scoreJob at h
  cases hq : skillsQuad cs (jobSkillsVal row) with
  | none =>
    rw [hq] at h
    exact absurd h (by simp)
  | some q =>
    rw [hq] at h
    injection h with h'
    exact ⟨q, rfl, h'.symm⟩

/-- C7: a scored job carries exactly one reason per component, in the fixed
order [skills summary, location, experience, salary, recency], with the
skills summary present — making five reasons — exactly when both the
candidate skill list and the decoded job skills are non-empty (truthy), and
four reasons otherwise. -/
theorem reasons_spec (pd : String → Option Int) (cs : List String)
    (ey : Option Int) (pl : List String) (sm : Option Int) (row : JobRow)
    (res : ScoredJob) (h : scoreJob pd cs ey pl sm row = some res) :
    (jvalTruthy (jobSkillsVal row) = true ∧ cs ≠ [] →
      ∃ s, res.match_reasons =
          [s,
           (score_location pl row.location row.location_type).2,
           (score_experience ey row.experience_min row.experience_max).2,
           (score_salary sm row.salary_min row.salary_max).2,
           (score_recency (recencyDays pd row.posted_at)).2] ∧
        "Skills match: ".data.isPrefixOf s.data = true ∧
        res.match_reasons.length = 5) ∧
    (¬(jvalTruthy (jobSkillsVal row) = true ∧ cs ≠ []) →
      res.match_reasons =
        [(score_location pl row.location row.location_type).2,
         (score_experience ey row.experience_min row.experience_max).2,
         (score_salary sm row.salary_min row.salary_max).2,
         (score_recency (recencyDays pd row.posted_at)).2] ∧
      res.match_reasons.length = 4) := by
  obtain ⟨q, hq, hres⟩ := scoreJob_inv h
  have hreasons : res.match_reasons =
      reasonsList pd cs ey pl sm row q.2.1 q.2.2.2 := by
    rw [hres]
    rfl
  unfold skillsQuad at hq
  split at hq
  · rename_i htruthy
    cases hit : jvalIterStrs (jobSkillsVal row) with
    | none =>
      rw [hit] at hq
      exact absurd hq (by simp)
    | some js =>
      rw [hit] at hq
      injection hq with hq'
      constructor
      · intro hcond
        refine ⟨skillsReasonStr q.2.1 js.length, ?_, ?_, ?_⟩
        · rw [hreasons, ← hq']
          simp [reasonsList, hcond.2]
        · unfold skillsReasonStr
          have : ("Skills match: " ++ (String.intercalate ", " (q.2.1.take 5) ++ " (" ++
              toString q.2.1.length ++ "/" ++ toString js.length ++
              " required skills)")).data =
              "Skills match: ".data ++ (String.intercalate ", " (q.2.1.take 5) ++ " (" ++
              toString q.2.1.length ++ "/" ++ toString js.length ++
              " required skills)").data := by
            simp [String.data_append]
          rw [show "Skills match: " ++ String.intercalate ", " (q.2.1.take 5) ++ " (" ++
              toString q.2.1.length ++ "/" ++ toString js.length ++
              " required skills)" =
              "Skills match: " ++ (String.intercalate ", " (q.2.1.take 5) ++ " (" ++
              toString q.2.1.length ++ "/" ++ toString js.length ++
              " required skills)") by simp [String.append_assoc]]
          rw [this]
          exact isPrefixOf_self_append _ _
        · rw [hreasons, ← hq']
          simp [reasonsList, hcond.2]
      · intro hcond
        have hcs : cs = [] := by
          by_cases hc : cs = []
          · exact hc
          · exact absurd ⟨htruthy, hc⟩ hcond
        constructor
        · rw [hreasons, ← hq']
          simp [reasonsList, hcs]
        · rw [hreasons, ← hq']
          simp [reasonsList, hcs]
  · rename_i htruthy
    injection hq with hq'
    constructor
    · intro hcond
      exact absurd hcond.1 htruthy
    · intro _
      constructor
      · rw [hreasons, ← hq']
        simp [reasonsList]
      · rw [hreasons, ← hq']
        simp [reasonsList]

/-- Witness for `reasons_spec`: a no-skills job yields the four
component reasons. -/
theorem reasons_spec_witness :
    (buildScored demoParseDays [] none [] none baseRow 20 [] [] none).match_reasons =
      [(score_location [] baseRow.location baseRow.location_type).2,
       (score_experience none baseRow.experience_min baseRow.experience_max).2,
       (score_salary none baseRow.salary_min baseRow.salary_max).2,
       (score_recency (recencyDays demoParseDays baseRow.posted_at)).2] :=
  ((reasons_spec demoParseDays [] none [] none baseRow
    (buildScored demoParseDays [] none [] none baseRow 20 [] [] none) rfl).2
    (by decide)).1

/-! ## C5: match_count versus the returned list -/

/-- C5: `match_count` counts the jobs scoring ≥ 30 over the *entire* scored
pool, while the returned list is the top `limit` of the sort, regardless of
the threshold; consequently the two are independent — in the first concrete
pool two jobs clear 30 but only one is returned, in the second only one
clears 30 while three are returned. -/
theorem match_count_spec :
    (∀ (pd : String → Option Int) (sk : Option (List String)) (ey : Option Int)
        (pl : Option (List String)) (sm : Option Int) (rt : Option String)
        (limit : Nat) (rows : List JobRow) (scored : List ScoredJob),
      scoreAll pd (computeCandidateSkills sk rt) ey
          (pyLocs pl) sm rows = some scored →
      match_jobs pd sk ey pl sm rt limit rows =
        some { match_count := (scored.filter (fun j => j.match_score ≥ 30)).length,
               jobs := (sortByScoreDesc scored).take limit,
               extracted_skills := computeCandidateSkills sk rt }) ∧
    (match_jobs demoParseDays (some ["python"]) (some 0) (some ["delhi"]) (some 100000)
        none 1 [goodRow, goodRow]).map (fun r => (r.match_count, r.jobs.length)) =
      some (2, 1) ∧
    (match_jobs demoParseDays (some ["python"]) (some 0) (some ["delhi"]) (some 100000)
        none 3 [goodRow, lowRow, lowRow]).map (fun r => (r.match_count, r.jobs.length)) =
      some (1, 3) := by
  refine ⟨fun pd sk ey pl sm rt limit rows scored h => ?_, by rfl, by rfl⟩
  simp only [match_jobs]
  rw [h]

/-- Witness for `match_count_spec` on a one-row pool. -/
theorem match_count_spec_witness :
    match_jobs demoParseDays (some ["python"]) (some 0) (some ["delhi"]) (some 100000)
        none 5 [goodRow] =
      some { match_count :=
               ([buildScored demoParseDays ["python"] (some 0) ["delhi"] (some 100000)
                   goodRow 20 [] [] none].filter (fun j => j.match_score ≥ 30)).length,
             jobs := (sortByScoreDesc
               [buildScored demoParseDays ["python"] (some 0) ["delhi"] (some 100000)
                  goodRow 20 [] [] none]).take 5,
             extracted_skills := computeCandidateSkills (some ["python"]) none } :=
  match_count_spec.1 demoParseDays (some ["python"]) (some 0) (some ["delhi"])
    (some 100000) none 5 [goodRow]
    [buildScored demoParseDays ["python"] (some 0) ["delhi"] (some 100000)
       goodRow 20 [] [] none] rfl

/-! ## C10: per-record degradation of unparsable skill data -/

/-- C10 counterexample: a stored skills column `"5"` is valid JSON but not a
list, so it fails to parse *as a JSON list*; yet the whole match request
fails (the `except` clause only catches JSON decode errors, and iterating
the decoded integer raises an uncaught `TypeError`). -/
theorem corrupt_skills_counterexample :
    json_loads "5" = some (.jnum false) ∧
    match_jobs demoParseDays (some ["python"]) (some 0) (some ["delhi"]) (some 100000)
      none 20 [corruptRow] = none :=
  ⟨rfl, rfl⟩

theorem scoreAll_append (pd : String → Option Int) (cs : List String)
    (ey : Option Int) (pl : List String) (sm : Option Int)
    {l1 l2 : List JobRow} {r1 r2 : List ScoredJob}
    (h1 : scoreAll pd cs ey pl sm l1 = some r1)
    (h2 : scoreAll pd cs ey pl sm l2 = some r2) :
    scoreAll pd cs ey pl sm (l1 ++ l2) = some (r1 ++ r2) := by
  induction l1 generalizing r1 with
  | nil =>
    unfold scoreAll at h1
    injection h1 with h1'
    subst h1'
    simpa using h2
  | cons r rs ih =>
    rw [List.cons_append]
    unfold scoreAll at h1 ⊢
    cases hj : scoreJob pd cs ey pl sm r with
    | none =>
      rw [hj] at h1
      exact absurd h1 (by simp)
    | some s =>
      rw [hj] at h1
      cases hrs : scoreAll pd cs ey pl sm rs with
      | none =>
        rw [hrs] at h1
        exact absurd h1 (by simp)
      | some ss =>
        rw [hrs] at h1
        injection h1 with h1'
        subst h1'
        rw [ih hrs]
        rfl

/-- C10 amended: when a row's stored skill column fails to *decode* as JSON,
the row still scores (skill list degraded to empty: neutral 20, no matched
or missing skills, no skills reason), the request succeeds, and every other
record's entry is exactly what it would be on its own. -/
theorem corrupt_skills_degrade (pd : String → Option Int) (sk : Option (List String))
    (ey : Option Int) (pl : Option (List String)) (sm : Option Int)
    (rt : Option String) (limit : Nat) (pre post : List JobRow) (row : JobRow)
    (lpre lpost : List ScoredJob)
    (hrow : json_loads (rawSkills row) = none)
    (hpre : scoreAll pd (computeCandidateSkills sk rt) ey
      (pyLocs pl) sm pre = some lpre)
    (hpost : scoreAll pd (computeCandidateSkills sk rt) ey
      (pyLocs pl) sm post = some lpost) :
    scoreJob pd (computeCandidateSkills sk rt) ey
        (pyLocs pl) sm row =
      some (degradedScored pd (computeCandidateSkills sk rt) ey
        (pyLocs pl) sm row) ∧
    (degradedScored pd (computeCandidateSkills sk rt) ey
        (pyLocs pl) sm row).skills_match = [] ∧
    (degradedScored pd (computeCandidateSkills sk rt) ey
        (pyLocs pl) sm row).skills_missing = [] ∧
    match_jobs pd sk ey pl sm rt limit (pre ++ row :: post) =
      some { match_count :=
               ((lpre ++ degradedScored pd (computeCandidateSkills sk rt) ey
                   (pyLocs pl) sm row :: lpost).filter
                 (fun j => j.match_score ≥ 30)).length,
             jobs := (sortByScoreDesc
               (lpre ++ degradedScored pd (computeCandidateSkills sk rt) ey
                  (pyLocs pl) sm row :: lpost)).take limit,
             extracted_skills := computeCandidateSkills sk rt } := by
  have hj : scoreJob pd (computeCandidateSkills sk rt) ey
      (pyLocs pl) sm row =
      some (degradedScored pd (computeCandidateSkills sk rt) ey
        (pyLocs pl) sm row) := by
    unfold scoreJob jobSkillsVal
    rw [hrow]
    rfl
  refine ⟨hj, rfl, rfl, ?_⟩
  have hrowall : scoreAll pd (computeCandidateSkills sk rt) ey
      (pyLocs pl) sm (row :: post) =
      some (degradedScored pd (computeCandidateSkills sk rt) ey
        (pyLocs pl) sm row :: lpost) := by
    unfold scoreAll
    rw [hj, hpost]
  have hall : scoreAll pd (computeCandidateSkills sk rt) ey
      (pyLocs pl) sm (pre ++ row :: post) =
      some (lpre ++ degradedScored pd (computeCandidateSkills sk rt) ey
        (pyLocs pl) sm row :: lpost) :=
    scoreAll_append _ _ _ _ _ hpre hrowall
  simp only [match_jobs]
  rw [hall]

/-- Witness for `corrupt_skills_degrade`: a pool of one healthy row and one
row whose skills column is not JSON. -/
theorem corrupt_skills_degrade_witness :
    match_jobs demoParseDays (some ["python"]) (some 0) (some ["delhi"]) (some 100000)
        none 5 ([goodRow] ++ garbageRow :: []) =
      some { match_count :=
               (([buildScored demoParseDays ["python"] (some 0) ["delhi"] (some 100000)
                    goodRow 20 [] [] none] ++
                 degradedScored demoParseDays ["python"] (some 0) ["delhi"] (some 100000)
                    garbageRow :: []).filter (fun j => j.match_score ≥ 30)).length,
             jobs := (sortByScoreDesc
               ([buildScored demoParseDays ["python"] (some 0) ["delhi"] (some 100000)
                   goodRow 20 [] [] none] ++
                degradedScored demoParseDays ["python"] (some 0) ["delhi"] (some 100000)
                   garbageRow :: [])).take 5,
             extracted_skills := computeCandidateSkills (some ["python"]) none } :=
  (corrupt_skills_degrade demoParseDays (some ["python"]) (some 0) (some ["delhi"])
    (some 100000) none 5 [goodRow] [] garbageRow
    [buildScored demoParseDays ["python"] (some 0) ["delhi"] (some 100000)
       goodRow 20 [] [] none] [] rfl rfl rfl).2.2.2

/-! ## C8: empty sanitized query falls back to the structured path -/

/-- C8: whenever sanitization empties the free-text query — e.g. a query of
only quote characters — the search returns exactly the structured-filter
path's normal (jobs, total) result for any database, filters, sort and
pagination (in the model both paths are total functions, so no error is
raised). -/
theorem fts_empty_fallback :
    (∀ (fm : String → JobRow → Bool) (fr : JobRow → Int) (q : String)
        (fl : SearchFilters) (sort : String) (limit offset : Nat)
        (rows : List JobRow),
      sanitize_fts q = "" →
      search_jobs fm fr (some q) fl sort limit offset rows =
        filter_search fl sort limit offset rows) ∧
    sanitize_fts "\"\"\"" = "" := by
  refine ⟨fun fm fr q fl sort limit offset rows h => ?_, by decide⟩
  by_cases hq : q = ""
  · simp [search_jobs, hq]
  · simp [search_jobs, hq, fts_search, h]

/-- Witness for `fts_empty_fallback` on a quotes-only query. -/
theorem fts_empty_fallback_witness :
    search_jobs (fun _ _ => false) (fun _ => 0) (some "\"\"\"")
        {} "relevance" 20 0 [baseRow, lowRow] =
      filter_search {} "relevance" 20 0 [baseRow, lowRow] :=
  fts_empty_fallback.1 (fun _ _ => false) (fun _ => 0) "\"\"\"" {} "relevance" 20 0
    [baseRow, lowRow] (by decide)

end AgentJobs
